import Mathlib

/-!
Shallow embedding of the `llama_index` evaluation module
(`llama_index/evaluation/base.py` and `llama_index/evaluation/relevancy.py`).

The external collaborators (the summary index, its query engine, and the
language-model invocation behind them) are modelled as an oracle function
passed to `evaluate`: given the documents built from the contexts, the
service context, the two prompt templates, and the query string, the oracle
returns the raw answer text (Python `str(query_engine.query(...))`).
Python `None` is `Option.none`; raised exceptions are `Except.error`.
-/

/-- Substring machinery: Python's `needle in haystack` on strings is
contiguous-substring containment.  `leadsWith n h` is true when `n` is a
prefix of `h` (first-mismatch scan). -/
def leadsWith : List Char → List Char → Bool
  | [], _ => true
  | _ :: _, [] => false
  | a :: as, b :: bs => a == b && leadsWith as bs

/-- `hasSubstr n h` is true when `n` occurs contiguously anywhere in `h`,
the semantics of Python's `in` operator on strings. -/
def hasSubstr (needle : List Char) : List Char → Bool
  | [] => needle.isEmpty
  | c :: rest => leadsWith needle (c :: rest) || hasSubstr needle rest

/-- Python `needle in haystack` for strings. -/
def strContains (haystack needle : String) : Bool :=
  hasSubstr needle.toList haystack.toList

/-- Python `str.lower()` (ASCII case folding, which is all the verdict
check needs since the needle is `"yes"`). -/
def strLower (s : String) : String :=
  String.mk (s.data.map Char.toLower)

/-- `llama_index.prompts.PromptTemplate`: a prompt template wrapping a
template string with named placeholders.  The evaluator code only ever
constructs one from a string and passes it to the query engine. -/
structure PromptTemplate where
  template : String

/-- In the evaluator's signatures `BasePromptTemplate` is the abstract
template type; the module itself only ever supplies `PromptTemplate`s. -/
abbrev BasePromptTemplate := PromptTemplate

/-- `llama_index.ServiceContext`: opaque model-invocation configuration
bundle (external collaborator). -/
structure ServiceContext where
  config : Nat

/-- `ServiceContext.from_defaults()`: the no-argument defaults factory. -/
def ServiceContext.from_defaults : ServiceContext :=
  ServiceContext.mk 0

/-- `llama_index.schema.Document`: one text document, built from one
context string (`Document(text=context)`). -/
structure Document where
  text : String

/-- The external index/query-engine/model pipeline
(`SummaryIndex.from_documents` + `as_query_engine` + `query` + `str`):
from the documents, the service context, the text-qa template, the refine
template and the query string to the raw answer text. -/
abbrev QueryOracle :=
  List Document → ServiceContext → PromptTemplate → PromptTemplate → String → String

/-- `llama_index.evaluation.base.EvaluationResult`: output record of an
evaluator, all fields optional (pydantic `Field(None, ...)` defaults). -/
structure EvaluationResult where
  query : Option String
  contexts : Option (List String)
  response : Option String
  passing : Option Bool
  feedback : Option String
  score : Option Float

/-- Legacy alias from `base.py`: `Evaluation = EvaluationResult`. -/
abbrev Evaluation := EvaluationResult

/-- Errors raised by `RelevancyEvaluator.evaluate` (both are `ValueError`
in Python; the spec names them InvalidInput and EvaluationRejected). -/
inductive EvalError where
  | invalidInput
  | evaluationRejected
deriving DecidableEq

/-- A source node of a `Response` object: exposes `get_content()`. -/
structure ResponseNode where
  content : String

/-- `node.get_content()`. -/
def ResponseNode.get_content (n : ResponseNode) : String :=
  n.content

/-- `llama_index.response.schema.Response`: a generated response text
(possibly absent) plus its ordered source nodes. -/
structure Response where
  response : Option String
  source_nodes : List ResponseNode

/-- `DEFAULT_EVAL_TEMPLATE` from `relevancy.py` (Python adjacent string
literals concatenated; in-string backslash-newline continuations keep the
following indentation). -/
def DEFAULT_EVAL_TEMPLATE : PromptTemplate :=
  PromptTemplate.mk
    ("Your task is to evaluate if the response for the query     is in line with the context information provided.\nYou have two options to answer. Either YES/ NO.\nAnswer - YES, if the response for the query     is in line with context information otherwise NO.\nQuery and Response: \n \x7bquery_str\x7d\nContext: \n \x7bcontext_str\x7d\nAnswer: ")

/-- `DEFAULT_REFINE_TEMPLATE` from `relevancy.py`. -/
def DEFAULT_REFINE_TEMPLATE : PromptTemplate :=
  PromptTemplate.mk
    ("We want to understand if the following query and response isin line with the context information: \n \x7bquery_str\x7d\nWe have provided an existing YES/NO answer: \n \x7bexisting_answer\x7d\nWe have the opportunity to refine the existing answer (only if needed) with some more context below.\n------------\n\x7bcontext_msg\x7d\n------------\nIf the existing answer was already YES, still answer YES. If the information is present in the new context, answer YES. Otherwise answer NO.\n")

/-- `RelevancyEvaluator`: the state its `__init__` stores. -/
structure RelevancyEvaluator where
  service_context : ServiceContext
  raise_error : Bool
  eval_template : PromptTemplate
  refine_template : PromptTemplate

/-- `RelevancyEvaluator.__init__`: defaults the service context, wraps a
string template into a `PromptTemplate`, and falls back to the module
defaults when a template is absent. -/
def RelevancyEvaluator.init
    (service_context : Option ServiceContext)
    (raise_error : Bool)
    (eval_template : Option (Sum String BasePromptTemplate))
    (refine_template : Option (Sum String BasePromptTemplate)) :
    RelevancyEvaluator :=
  let sc := match service_context with
    | some s => s
    | none => ServiceContext.from_defaults
  let et := match eval_template with
    | some (Sum.inl s) => PromptTemplate.mk s
    | some (Sum.inr t) => t
    | none => DEFAULT_EVAL_TEMPLATE
  let rt := match refine_template with
    | some (Sum.inl s) => PromptTemplate.mk s
    | some (Sum.inr t) => t
    | none => DEFAULT_REFINE_TEMPLATE
  RelevancyEvaluator.mk sc raise_error et rt

/-- The combined judgment subject built by `evaluate`:
`f"Question: {query}\nResponse: {response}"`. -/
def queryResponseStr (query response : String) : String :=
  "Question: " ++ query ++ "\nResponse: " ++ response

/-- `RelevancyEvaluator.evaluate`.  `kwargs` models `**kwargs`, which the
body discards (`del kwargs`).  The oracle stands for the index pipeline;
everything else follows the Python body line by line. -/
def RelevancyEvaluator.evaluate
    (self : RelevancyEvaluator) (oracle : QueryOracle)
    (query : Option String) (response : Option String)
    (contexts : Option (List String))
    (kwargs : List (String × String)) :
    Except EvalError EvaluationResult :=
  match query, contexts, response with
  | some q, some cs, some r =>
      let docs := cs.map (fun context => Document.mk context)
      let query_response := queryResponseStr q r
      let raw_response_txt :=
        oracle docs self.service_context self.eval_template self.refine_template
          query_response
      if strContains (strLower raw_response_txt) "yes" then
        Except.ok
          (EvaluationResult.mk (some q) none (some r) (some true)
            (some raw_response_txt) none)
      else if self.raise_error then
        Except.error EvalError.evaluationRejected
      else
        Except.ok
          (EvaluationResult.mk (some q) none (some r) (some false)
            (some raw_response_txt) none)
  | _, _, _ => Except.error EvalError.invalidInput

/-- `BaseEvaluator.evaluate_response` as inherited by
`RelevancyEvaluator`: extract the response text and the source-node
contents, then delegate to `evaluate`. -/
def RelevancyEvaluator.evaluate_response
    (self : RelevancyEvaluator) (oracle : QueryOracle)
    (query : Option String) (response : Option Response)
    (kwargs : List (String × String)) :
    Except EvalError EvaluationResult :=
  let response_str : Option String := match response with
    | none => none
    | some resp => resp.response
  let contexts : Option (List String) := match response with
    | none => none
    | some resp => some (resp.source_nodes.map (fun node => node.get_content))
  self.evaluate oracle query response_str contexts kwargs

/-- Legacy alias from `relevancy.py`:
`QueryResponseEvaluator = RelevancyEvaluator`. -/
abbrev QueryResponseEvaluator := RelevancyEvaluator

/-- Modelled from the spec: the recognized placeholder names of the eval
template are `query_str` and `context_str` (the template-validation code,
if any, would live in the external `PromptTemplate` collaborator, which is
not part of these two source files). -/
def recognizedEvalPlaceholders (t : String) : Bool :=
  strContains t "\x7bquery_str\x7d" && strContains t "\x7bcontext_str\x7d"

/-- Modelled from the spec: the recognized placeholder names of the refine
template are `query_str`, `existing_answer` and `context_msg`. -/
def recognizedRefinePlaceholders (t : String) : Bool :=
  strContains t "\x7bquery_str\x7d" && strContains t "\x7bexisting_answer\x7d" &&
    strContains t "\x7bcontext_msg\x7d"

/-- An oracle that ignores its inputs and answers a fixed text; used to
instantiate theorems at concrete inputs. -/
def constOracle (answer : String) : QueryOracle :=
  fun _ _ _ _ _ => answer

/-- A concrete evaluator with all-default configuration. -/
def defaultEvaluator : RelevancyEvaluator :=
  RelevancyEvaluator.init none false none none

/-- A concrete evaluator with `raise_error = true`. -/
def raisingEvaluator : RelevancyEvaluator :=
  RelevancyEvaluator.init none true none none

theorem leadsWith_iff (n : List Char) :
    ∀ l, leadsWith n l = true ↔ ∃ t, l = n ++ t := by
  induction n with
  | nil =>
      intro l
      simp [leadsWith]
  | cons a as ih =>
      intro l
      cases l with
      | nil =>
          simp [leadsWith]
      | cons b bs =>
          simp only [leadsWith, Bool.and_eq_true, beq_iff_eq, ih bs,
            List.cons_append, List.cons.injEq]
          constructor
          · rintro ⟨hab, t, ht⟩
            exact ⟨t, hab.symm, ht⟩
          · rintro ⟨t, hba, ht⟩
            exact ⟨hba.symm, t, ht⟩

theorem hasSubstr_iff (n : List Char) :
    ∀ l, hasSubstr n l = true ↔ ∃ pre post, l = pre ++ n ++ post := by
  intro l
  induction l with
  | nil =>
      rw [hasSubstr, List.isEmpty_iff]
      constructor
      · rintro rfl
        exact ⟨[], [], rfl⟩
      · rintro ⟨pre, post, hp⟩
        have h1 := List.append_eq_nil.mp hp.symm
        exact (List.append_eq_nil.mp h1.1).2
  | cons c rest ih =>
      rw [hasSubstr, Bool.or_eq_true, ih, leadsWith_iff]
      constructor
      · rintro (⟨t, ht⟩ | ⟨pre, post, hp⟩)
        · exact ⟨[], t, by simp [ht]⟩
        · exact ⟨c :: pre, post, by simp [hp]⟩
      · rintro ⟨pre, post, hp⟩
        cases pre with
        | nil =>
            left
            exact ⟨post, by simpa using hp⟩
        | cons d pres =>
            right
            simp only [List.cons_append, List.cons.injEq] at hp
            exact ⟨pres, post, hp.2⟩

theorem strContains_iff (haystack needle : String) :
    strContains haystack needle = true
      ↔ ∃ pre post, haystack.toList = pre ++ needle.toList ++ post :=
  hasSubstr_iff needle.toList haystack.toList

/-- C2: if any of `query`, `response`, `contexts` is absent, `evaluate`
fails with the invalid-input error, for every oracle — so no index
construction or model invocation can have been performed — and no
`EvaluationResult` is returned. -/
theorem evaluate_absent_input_invalid
    (self : RelevancyEvaluator) (oracle : QueryOracle)
    (query response : Option String) (contexts : Option (List String))
    (kw : List (String × String))
    (h : query = none ∨ response = none ∨ contexts = none) :
    self.evaluate oracle query response contexts kw
      = Except.error EvalError.invalidInput := by
  cases query <;> cases response <;> cases contexts <;>
    simp_all [RelevancyEvaluator.evaluate]

/-- Witness for C2: a concrete call with `query = none` yields the
invalid-input error. -/
theorem evaluate_absent_input_invalid_witness :
    defaultEvaluator.evaluate (constOracle "yes") none (some "r") (some []) []
      = Except.error EvalError.invalidInput :=
  evaluate_absent_input_invalid defaultEvaluator (constOracle "yes")
    none (some "r") (some []) [] (Or.inl rfl)

/-- C5: `evaluate_response` on a present response object equals `evaluate`
on the object's text and on the contents of its source nodes in order; the
adapter is pure extraction plus delegation. -/
theorem evaluate_response_delegates
    (self : RelevancyEvaluator) (oracle : QueryOracle)
    (query : Option String) (resp : Response)
    (kw : List (String × String)) :
    self.evaluate_response oracle query (some resp) kw
      = self.evaluate oracle query resp.response
          (some (resp.source_nodes.map (fun node => node.get_content))) kw :=
  rfl

/-- C10: `evaluate` discards its extra keyword options: two calls that
agree on everything except `kwargs` have identical outcomes. -/
theorem evaluate_ignores_kwargs
    (self : RelevancyEvaluator) (oracle : QueryOracle)
    (query response : Option String) (contexts : Option (List String))
    (kw1 kw2 : List (String × String)) :
    self.evaluate oracle query response contexts kw1
      = self.evaluate oracle query response contexts kw2 :=
  rfl

/-- C1: when `evaluate` returns a result, `passing = some true` exactly
when the lowercased raw answer text contains the substring "yes" anywhere
(as a contiguous-run decomposition), and `passing = some false` exactly
when it does not. -/
theorem evaluate_passing_iff_yes_substring
    (self : RelevancyEvaluator) (oracle : QueryOracle)
    (q r : String) (cs : List String) (kw : List (String × String))
    (res : EvaluationResult) (raw : String)
    (hraw : raw = oracle (cs.map (fun context => Document.mk context))
      self.service_context self.eval_template self.refine_template
      (queryResponseStr q r))
    (h : self.evaluate oracle (some q) (some r) (some cs) kw = Except.ok res) :
    (res.passing = some true
        ↔ ∃ pre post, (strLower raw).toList = pre ++ "yes".toList ++ post)
    ∧ (res.passing = some false
        ↔ ¬ ∃ pre post, (strLower raw).toList = pre ++ "yes".toList ++ post) := by
  subst hraw
  simp only [RelevancyEvaluator.evaluate] at h
  split at h
  case isTrue hc =>
    rw [Except.ok.injEq] at h
    subst h
    have hex := (strContains_iff _ "yes").mp hc
    refine ⟨⟨fun _ => hex, fun _ => rfl⟩, ⟨fun hfalse => ?_, fun hno => absurd hex hno⟩⟩
    exact absurd hfalse (by simp)
  case isFalse hc =>
    split at h
    · exact absurd h (by simp)
    · rw [Except.ok.injEq] at h
      subst h
      have hno : ¬ ∃ pre post,
          (strLower (oracle (cs.map (fun context => Document.mk context))
            self.service_context self.eval_template self.refine_template
            (queryResponseStr q r))).toList = pre ++ "yes".toList ++ post :=
        fun hex => hc ((strContains_iff _ "yes").mpr hex)
      refine ⟨⟨fun htrue => ?_, fun hex => absurd hex hno⟩, ⟨fun _ => hno, fun _ => rfl⟩⟩
      exact absurd htrue (by simp)

/-- Witness for C1: with a raw answer "Answer: YES, because...", the
returned result has `passing = some true`. -/
theorem evaluate_passing_iff_yes_substring_witness :
    (EvaluationResult.mk (some "q") none (some "r") (some true)
        (some "Answer: YES, because...") none).passing = some true :=
  ((evaluate_passing_iff_yes_substring defaultEvaluator
      (constOracle "Answer: YES, because...") "q" "r" ["ctx"] []
      (EvaluationResult.mk (some "q") none (some "r") (some true)
        (some "Answer: YES, because...") none)
      "Answer: YES, because..." rfl rfl).1).mpr
    ⟨"answer: ".toList, ", because...".toList, by decide⟩

/-- C3: on inputs whose verdict would be false, an evaluator with
`raise_error = true` fails with the rejection error and returns no result,
while the same configuration with `raise_error = false` returns a result
with `passing = some false`. -/
theorem evaluate_raise_error_behavior
    (sc : ServiceContext) (et rt : PromptTemplate) (oracle : QueryOracle)
    (q r : String) (cs : List String) (kw : List (String × String))
    (raw : String)
    (hraw : raw = oracle (cs.map (fun context => Document.mk context)) sc et rt
      (queryResponseStr q r))
    (h : ¬ ∃ pre post, (strLower raw).toList = pre ++ "yes".toList ++ post) :
    (RelevancyEvaluator.mk sc true et rt).evaluate oracle
        (some q) (some r) (some cs) kw
      = Except.error EvalError.evaluationRejected
    ∧ (RelevancyEvaluator.mk sc false et rt).evaluate oracle
        (some q) (some r) (some cs) kw
      = Except.ok (EvaluationResult.mk (some q) none (some r) (some false)
          (some raw) none) := by
  have hc : strContains (strLower raw) "yes" = false := by
    cases hb : strContains (strLower raw) "yes" with
    | false => rfl
    | true => exact absurd ((strContains_iff _ "yes").mp hb) h
  subst hraw
  constructor
  · simp [RelevancyEvaluator.evaluate, hc]
  · simp [RelevancyEvaluator.evaluate, hc]

/-- Witness for C3: with raw answer "NO", the raising evaluator fails with
the rejection error and the non-raising one returns `passing = some
false`. -/
theorem evaluate_raise_error_behavior_witness :
    raisingEvaluator.evaluate (constOracle "NO") (some "q") (some "r") (some ["c"]) []
      = Except.error EvalError.evaluationRejected
    ∧ defaultEvaluator.evaluate (constOracle "NO") (some "q") (some "r") (some ["c"]) []
      = Except.ok (EvaluationResult.mk (some "q") none (some "r") (some false)
          (some "NO") none) :=
  evaluate_raise_error_behavior ServiceContext.from_defaults
    DEFAULT_EVAL_TEMPLATE DEFAULT_REFINE_TEMPLATE (constOracle "NO")
    "q" "r" ["c"] [] "NO" rfl
    (fun hex => absurd ((strContains_iff (strLower "NO") "yes").mpr hex) (by decide))

/-- C4: a normal return populates `query` and `response` with the inputs,
a definite boolean `passing`, and `feedback` = the raw answer text, while
`contexts` and `score` are left absent. -/
theorem evaluate_result_fields
    (self : RelevancyEvaluator) (oracle : QueryOracle)
    (q r : String) (cs : List String) (kw : List (String × String))
    (res : EvaluationResult)
    (h : self.evaluate oracle (some q) (some r) (some cs) kw = Except.ok res) :
    res.query = some q ∧ res.response = some r
    ∧ (res.passing = some true ∨ res.passing = some false)
    ∧ res.feedback = some (oracle (cs.map (fun context => Document.mk context))
        self.service_context self.eval_template self.refine_template
        (queryResponseStr q r))
    ∧ res.contexts = none ∧ res.score = none := by
  simp only [RelevancyEvaluator.evaluate] at h
  split at h
  · rw [Except.ok.injEq] at h
    subst h
    exact ⟨rfl, rfl, Or.inl rfl, rfl, rfl, rfl⟩
  · split at h
    · exact absurd h (by simp)
    · rw [Except.ok.injEq] at h
      subst h
      exact ⟨rfl, rfl, Or.inr rfl, rfl, rfl, rfl⟩

/-- Witness for C4: a concrete successful call returns the populated
record with absent contexts and score. -/
theorem evaluate_result_fields_witness :
    (EvaluationResult.mk (some "q") none (some "r") (some true)
        (some "yes") none).query = some "q"
    ∧ (EvaluationResult.mk (some "q") none (some "r") (some true)
        (some "yes") none).response = some "r"
    ∧ ((EvaluationResult.mk (some "q") none (some "r") (some true)
        (some "yes") none).passing = some true
      ∨ (EvaluationResult.mk (some "q") none (some "r") (some true)
        (some "yes") none).passing = some false)
    ∧ (EvaluationResult.mk (some "q") none (some "r") (some true)
        (some "yes") none).feedback = some "yes"
    ∧ (EvaluationResult.mk (some "q") none (some "r") (some true)
        (some "yes") none).contexts = none
    ∧ (EvaluationResult.mk (some "q") none (some "r") (some true)
        (some "yes") none).score = none :=
  evaluate_result_fields defaultEvaluator (constOracle "yes") "q" "r" ["c1"] []
    (EvaluationResult.mk (some "q") none (some "r") (some true) (some "yes") none)
    rfl

/-- C6: an empty contexts sequence is accepted: the call never fails with
the invalid-input error, and a normal return carries the collaborator's
answer over the empty document list as feedback, together with a definite
boolean verdict. -/
theorem evaluate_empty_contexts_accepted
    (sc : ServiceContext) (re : Bool) (et rt : PromptTemplate)
    (oracle : QueryOracle) (q r : String) (kw : List (String × String)) :
    ((RelevancyEvaluator.mk sc re et rt).evaluate oracle
        (some q) (some r) (some []) kw ≠ Except.error EvalError.invalidInput)
    ∧ ∀ res,
        (RelevancyEvaluator.mk sc re et rt).evaluate oracle
            (some q) (some r) (some []) kw = Except.ok res →
        res.feedback = some (oracle [] sc et rt (queryResponseStr q r))
          ∧ (res.passing = some true ∨ res.passing = some false) := by
  constructor
  · intro hcontra
    simp only [RelevancyEvaluator.evaluate] at hcontra
    split at hcontra
    · exact absurd hcontra (by simp)
    · split at hcontra
      · exact absurd hcontra (by simp)
      · exact absurd hcontra (by simp)
  · intro res h
    simp only [RelevancyEvaluator.evaluate] at h
    split at h
    · rw [Except.ok.injEq] at h
      subst h
      exact ⟨rfl, Or.inl rfl⟩
    · split at h
      · exact absurd h (by simp)
      · rw [Except.ok.injEq] at h
        subst h
        exact ⟨rfl, Or.inr rfl⟩

/-- Witness for C6: a concrete call with empty contexts returns a result
whose feedback is the collaborator's answer over zero documents and whose
verdict is definite. -/
theorem evaluate_empty_contexts_accepted_witness :
    (EvaluationResult.mk (some "q") none (some "r") (some false)
        (some "No answer.") none).feedback = some "No answer."
    ∧ ((EvaluationResult.mk (some "q") none (some "r") (some false)
        (some "No answer.") none).passing = some true
      ∨ (EvaluationResult.mk (some "q") none (some "r") (some false)
        (some "No answer.") none).passing = some false) :=
  (evaluate_empty_contexts_accepted ServiceContext.from_defaults false
      DEFAULT_EVAL_TEMPLATE DEFAULT_REFINE_TEMPLATE (constOracle "No answer.")
      "q" "r" []).2
    (EvaluationResult.mk (some "q") none (some "r") (some false)
      (some "No answer.") none) rfl

/-- C7 counterexample: constructing an evaluator from an eval template
string with none of the recognized placeholders succeeds — the template is
stored verbatim, so no placeholder validation happens at construction. -/
theorem init_unvalidated_template_counterexample :
    recognizedEvalPlaceholders "hello" = false
    ∧ RelevancyEvaluator.init none false (some (Sum.inl "hello")) none
        = RelevancyEvaluator.mk ServiceContext.from_defaults false
            (PromptTemplate.mk "hello") DEFAULT_REFINE_TEMPLATE :=
  ⟨by decide, rfl⟩

/-- C7 (amended): construction performs no placeholder validation: any
supplied template string is wrapped and stored verbatim, any supplied
template value is stored as-is, and absent templates get the module
defaults. -/
theorem init_stores_templates_unvalidated
    (sc : Option ServiceContext) (re : Bool) (es rs : String)
    (ev rv : PromptTemplate) :
    ((RelevancyEvaluator.init sc re (some (Sum.inl es))
          (some (Sum.inl rs))).eval_template = PromptTemplate.mk es
      ∧ (RelevancyEvaluator.init sc re (some (Sum.inl es))
          (some (Sum.inl rs))).refine_template = PromptTemplate.mk rs)
    ∧ ((RelevancyEvaluator.init sc re (some (Sum.inr ev))
          (some (Sum.inr rv))).eval_template = ev
      ∧ (RelevancyEvaluator.init sc re (some (Sum.inr ev))
          (some (Sum.inr rv))).refine_template = rv)
    ∧ ((RelevancyEvaluator.init sc re none none).eval_template
          = DEFAULT_EVAL_TEMPLATE
      ∧ (RelevancyEvaluator.init sc re none none).refine_template
          = DEFAULT_REFINE_TEMPLATE) :=
  ⟨⟨rfl, rfl⟩, ⟨rfl, rfl⟩, ⟨rfl, rfl⟩⟩

/-- C9: the combined judgment subject is exactly
`"Question: " ++ query ++ "\n" ++ "Response: " ++ response`, and the
outcome of `evaluate` depends on the oracle only through its value at that
exact query string. -/
theorem evaluate_queries_combined_subject
    (self : RelevancyEvaluator) (o1 o2 : QueryOracle) (q r : String)
    (cs : List String) (kw : List (String × String))
    (h : o1 (cs.map (fun context => Document.mk context)) self.service_context
          self.eval_template self.refine_template
          ("Question: " ++ q ++ "\n" ++ "Response: " ++ r)
       = o2 (cs.map (fun context => Document.mk context)) self.service_context
          self.eval_template self.refine_template
          ("Question: " ++ q ++ "\n" ++ "Response: " ++ r)) :
    queryResponseStr q r = "Question: " ++ q ++ "\n" ++ "Response: " ++ r
    ∧ self.evaluate o1 (some q) (some r) (some cs) kw
        = self.evaluate o2 (some q) (some r) (some cs) kw := by
  have hnl : "\n" ++ "Response: " = "\nResponse: " := rfl
  have hs : queryResponseStr q r = "Question: " ++ q ++ "\n" ++ "Response: " ++ r := by
    rw [queryResponseStr, ← hnl, ← String.append_assoc]
  rw [← hs] at h
  refine ⟨hs, ?_⟩
  simp only [RelevancyEvaluator.evaluate]
  rw [h]

/-- Witness for C9: two syntactically different oracles that agree on the
combined subject string produce identical outcomes. -/
theorem evaluate_queries_combined_subject_witness :
    queryResponseStr "q" "r" = "Question: " ++ "q" ++ "\n" ++ "Response: " ++ "r"
    ∧ defaultEvaluator.evaluate (constOracle "yes") (some "q") (some "r") (some ["c"]) []
        = defaultEvaluator.evaluate
            (fun _ _ _ _ s => if s = "Question: q\nResponse: r" then "yes" else "no")
            (some "q") (some "r") (some ["c"]) [] :=
  evaluate_queries_combined_subject defaultEvaluator (constOracle "yes")
    (fun _ _ _ _ s => if s = "Question: q\nResponse: r" then "yes" else "no")
    "q" "r" ["c"] [] (by decide)
